import Mathlib

/-!
Shallow embedding of the proxy log-monitoring core in
`src/components/proxy/ProxyMonitor.tsx`: the bounded log store, the stats
counters, the filter predicate, and the effectful bootstrap / toggle / clear
commands (modelled with explicit `Except` results from the backend and a
trace of issued backend calls).
-/

/-- One observed request/response exchange (`ProxyRequestLog` in the source). -/
structure ProxyRequestLog where
  id : String
  timestamp : Nat
  method : String
  url : String
  status : Nat
  duration : Nat
  model : Option String := none
  errorMsg : Option String := none
  request_body : Option String := none
  response_body : Option String := none
  input_tokens : Option Nat := none
  output_tokens : Option Nat := none
deriving DecidableEq, Repr

/-- The three counters (`ProxyStats` in the source). -/
structure ProxyStats where
  total_requests : Nat
  success_count : Nat
  error_count : Nat
deriving DecidableEq, Repr

/-- The `proxy` section of the persisted configuration; only the
`enable_logging` field is touched by this component. -/
structure ProxyConfig where
  enable_logging : Bool
deriving DecidableEq, Repr

/-- The persisted configuration object; `proxy` is optional because the
source guards `config && config.proxy` before using it. -/
structure AppConfig where
  proxy : Option ProxyConfig
deriving DecidableEq, Repr

/-- The component's local state: the three `useState` cells used by the
monitoring core (`logs`, `stats`, `isLoggingEnabled`). -/
structure MonitorState where
  logs : List ProxyRequestLog
  stats : ProxyStats
  isLoggingEnabled : Bool
deriving DecidableEq, Repr

/-- The zero stats value: all three counters at 0. -/
def zeroStats : ProxyStats :=
  { total_requests := 0, success_count := 0, error_count := 0 }

/-- Initial component state: empty logs, zero stats, logging disabled
(the `useState` initializers in the source). -/
def initialState : MonitorState :=
  { logs := [], stats := zeroStats, isLoggingEnabled := false }

/-- The live-event log insertion: `setLogs(prev => [newLog, ...prev].slice(0, 1000))`. -/
def insertLog (newLog : ProxyRequestLog) (prev : List ProxyRequestLog) :
    List ProxyRequestLog :=
  (newLog :: prev).take 1000

/-- The success classification used by the live-event handler:
`newLog.status >= 200 && newLog.status < 400`. -/
def isSuccess (newLog : ProxyRequestLog) : Bool :=
  decide (200 ≤ newLog.status) && decide (newLog.status < 400)

/-- The live-event stats update:
`setStats(prev => ...)` incrementing `total_requests` and one of
`success_count` / `error_count` according to `isSuccess`. -/
def applyInsert (newLog : ProxyRequestLog) (prev : ProxyStats) : ProxyStats :=
  { total_requests := prev.total_requests + 1,
    success_count := prev.success_count + (if isSuccess newLog then 1 else 0),
    error_count := prev.error_count + (if isSuccess newLog then 0 else 1) }

/-- One live event (`proxy://request` listener body): the paired log insert
and stats update. -/
def handleLiveEvent (newLog : ProxyRequestLog) (s : MonitorState) : MonitorState :=
  { s with logs := insertLog newLog s.logs, stats := applyInsert newLog s.stats }

/-- A sequence of live events applied in arrival order. -/
def runLiveEvents (records : List ProxyRequestLog) (s : MonitorState) : MonitorState :=
  records.foldl (fun st r => handleLiveEvent r st) s

/-- Iterated log insertion (one live insert per record, in list order). -/
def insertMany (records : List ProxyRequestLog) (store : List ProxyRequestLog) :
    List ProxyRequestLog :=
  records.foldl (fun st r => insertLog r st) store

/-- The stats snapshot installation `setStats(currentStats)`: the fetched
value replaces the counters wholesale. -/
def setSnapshot (currentStats : ProxyStats) (_prev : ProxyStats) : ProxyStats :=
  currentStats

/-- Does `sub` occur at the head of `s`? Auxiliary for the JavaScript
`String.prototype.includes`. -/
def startsWithSub : List Char → List Char → Bool
  | _, [] => true
  | [], _ :: _ => false
  | c :: cs, d :: ds => c == d && startsWithSub cs ds

/-- Contiguous-substring test on character lists. -/
def hasSub : List Char → List Char → Bool
  | [], sub => sub.isEmpty
  | c :: cs, sub => startsWithSub (c :: cs) sub || hasSub cs sub

/-- JavaScript `s.includes(sub)`: substring containment. -/
def jsIncludes (s sub : String) : Bool :=
  hasSub s.toList sub.toList

/-- JavaScript `s.toLowerCase()`: lower-case each character. -/
def jsToLower (s : String) : String :=
  String.mk (s.toList.map Char.toLower)

/-- The filter predicate from `filteredLogs`:
`log.url.toLowerCase().includes(filter.toLowerCase()) ||
 log.method.toLowerCase().includes(filter.toLowerCase()) ||
 (log.model && log.model.toLowerCase().includes(filter.toLowerCase())) ||
 log.status.toString().includes(filter)`.
The `log.model && ...` conjunct is falsy when `model` is absent or is the
empty string (JavaScript truthiness), which the middle branch reflects. -/
def matchesLog (log : ProxyRequestLog) (filter : String) : Bool :=
  jsIncludes (jsToLower log.url) (jsToLower filter) ||
  jsIncludes (jsToLower log.method) (jsToLower filter) ||
  (match log.model with
   | some m => !(m == "") && jsIncludes (jsToLower m) (jsToLower filter)
   | none => false) ||
  jsIncludes (Nat.repr log.status) filter

/-- `filteredLogs`: the logs passing the filter predicate. -/
def filteredLogs (logs : List ProxyRequestLog) (filter : String) :
    List ProxyRequestLog :=
  logs.filter (fun log => matchesLog log filter)

/-- A backend invocation issued by the component, recorded in traces. -/
inductive BackendCall where
  | loadConfigCall : BackendCall
  | saveConfigCall (config : AppConfig) : BackendCall
  | setMonitorEnabled (enabled : Bool) : BackendCall
  | getLogs (limit : Nat) : BackendCall
  | getStats : BackendCall
  | clearCall : BackendCall
deriving DecidableEq, Repr

/-- The backend environment: each `invoke` endpoint may fail (a rejected
promise, caught by the surrounding `try`). `load_config` may succeed with a
null-ish config (`Option`), `get_proxy_logs` may succeed with a non-array
payload (`none`), and `get_proxy_stats` may succeed with a null payload. -/
structure BackendEnv where
  load_config : Except Unit (Option AppConfig)
  save_config : AppConfig → Except Unit Unit
  set_proxy_monitor_enabled : Bool → Except Unit Unit
  get_proxy_logs : Nat → Except Unit (Option (List ProxyRequestLog))
  get_proxy_stats : Except Unit (Option ProxyStats)
  clear_proxy_logs : Except Unit Unit

/-- The final stats-snapshot step of `loadData`:
`invoke('get_proxy_stats')` followed by `if (currentStats)
setStats(currentStats)`; the stats value replaces the counters wholesale. -/
def loadDataStats (env : BackendEnv) (s2 : MonitorState) (trace : List BackendCall) :
    MonitorState × List BackendCall :=
  match env.get_proxy_stats with
  | .error _ => (s2, trace ++ [.getLogs 100, .getStats])
  | .ok statsOpt =>
    match statsOpt with
    | some currentStats =>
      ({ s2 with stats := currentStats }, trace ++ [.getLogs 100, .getStats])
    | none => (s2, trace ++ [.getLogs 100, .getStats])

/-- The history-then-stats tail of `loadData`: fetch the log history with
limit 100 (`invoke('get_proxy_logs', ...)`), install an array result
wholesale via `setLogs`, then run the stats step. A rejected promise falls
through to the single `catch`, leaving the remaining steps unexecuted. -/
def loadDataTail (env : BackendEnv) (s : MonitorState) (trace : List BackendCall) :
    MonitorState × List BackendCall :=
  match env.get_proxy_logs 100 with
  | .error _ => (s, trace ++ [.getLogs 100])
  | .ok histOpt =>
    loadDataStats env
      (match histOpt with
        | some history => { s with logs := history }
        | none => s)
      trace

/-- `loadData`: load the config; if it and its `proxy` field are truthy,
mirror `enable_logging` into local state and sync it to the backend; then
run the history and stats fetches. All steps sit in one `try` block: the
first rejected promise jumps to the `catch` (which only logs), so every
step after a failure is skipped. The returned trace lists the backend
calls issued. -/
def loadData (env : BackendEnv) (s : MonitorState) :
    MonitorState × List BackendCall :=
  match env.load_config with
  | .error _ => (s, [.loadConfigCall])
  | .ok configOpt =>
    match configOpt with
    | some config =>
      match config.proxy with
      | some proxyCfg =>
        let s1 := { s with isLoggingEnabled := proxyCfg.enable_logging }
        match env.set_proxy_monitor_enabled proxyCfg.enable_logging with
        | .error _ =>
          (s1, [.loadConfigCall, .setMonitorEnabled proxyCfg.enable_logging])
        | .ok _ =>
          loadDataTail env s1 [.loadConfigCall, .setMonitorEnabled proxyCfg.enable_logging]
      | none => loadDataTail env s [.loadConfigCall]
    | none => loadDataTail env s [.loadConfigCall]

/-- `toggleLogging`: flip the flag; load the config, write the mutated
config back, sync the backend flag, and only then update local state. All
inside one `try`: a failure at any step (including the TypeError raised by
`config.proxy.enable_logging = newState` when `config` or `config.proxy`
is null-ish) leaves local state untouched and skips the remaining calls. -/
def toggleLogging (env : BackendEnv) (isLoggingEnabled : Bool) :
    Bool × List BackendCall :=
  let newState := !isLoggingEnabled
  match env.load_config with
  | .error _ => (isLoggingEnabled, [.loadConfigCall])
  | .ok none => (isLoggingEnabled, [.loadConfigCall])
  | .ok (some config) =>
    match config.proxy with
    | none => (isLoggingEnabled, [.loadConfigCall])
    | some proxyCfg =>
      let newConfig : AppConfig :=
        { proxy := some { proxyCfg with enable_logging := newState } }
      match env.save_config newConfig with
      | .error _ =>
        (isLoggingEnabled, [.loadConfigCall, .saveConfigCall newConfig])
      | .ok _ =>
        match env.set_proxy_monitor_enabled newState with
        | .error _ =>
          (isLoggingEnabled,
           [.loadConfigCall, .saveConfigCall newConfig, .setMonitorEnabled newState])
        | .ok _ =>
          (newState,
           [.loadConfigCall, .saveConfigCall newConfig, .setMonitorEnabled newState])

/-- `clearLogs`: after the confirmation dialog, invoke the durable clear;
on success reset logs to empty and stats to zero, on a rejected promise
leave both untouched (the `catch` only logs, no retry). If the dialog is
declined nothing is invoked. -/
def clearLogs (confirmed : Bool) (env : BackendEnv) (s : MonitorState) :
    MonitorState × List BackendCall :=
  if confirmed then
    match env.clear_proxy_logs with
    | .error _ => (s, [.clearCall])
    | .ok _ =>
      ({ s with
          logs := [],
          stats := { total_requests := 0, success_count := 0, error_count := 0 } },
       [.clearCall])
  else (s, [])

/-- A sample record used for concrete evaluations: a chat-completions
request with status 200. -/
def sampleLog (n : Nat) : ProxyRequestLog :=
  { id := Nat.repr n, timestamp := n, method := "GET",
    url := "/v1/chat/completions", status := 200, duration := 1 }

/-- A sample record with a prescribed status code. -/
def statusLog (code : Nat) : ProxyRequestLog :=
  { sampleLog 0 with status := code }

/-- The specification's notion of a case-insensitive substring: the
lower-cased query occurs contiguously in the lower-cased subject. -/
def ciSubstrOf (q s : String) : Prop :=
  hasSub (jsToLower s).toList (jsToLower q).toList = true

/-- Modelled from the spec's wording of the filter predicate, as the
refinement target for `matchesLog`: the query is a case-insensitive
substring of `url`, of `method`, or of `model` when present, or a
substring of the decimal string form of `status`. -/
def matchesSpec (log : ProxyRequestLog) (q : String) : Prop :=
  ciSubstrOf q log.url ∨ ciSubstrOf q log.method ∨
  (∃ m, log.model = some m ∧ ciSubstrOf q m) ∨
  hasSub (Nat.repr log.status).toList q.toList = true

/-- The signed discrepancy between `total_requests` and the sum of the two
classified counters. -/
def statsDiff (st : ProxyStats) : Int :=
  (st.total_requests : Int) - ((st.success_count : Int) + (st.error_count : Int))

/-- A history list of 1001 distinct records, longer than the store
capacity. -/
def bigHistory : List ProxyRequestLog :=
  (List.range 1001).map sampleLog

/-- A backend where the config load fails and everything else succeeds. -/
def envConfigFails : BackendEnv :=
  { load_config := .error (),
    save_config := fun _ => .ok (),
    set_proxy_monitor_enabled := fun _ => .ok (),
    get_proxy_logs := fun _ => .ok (some [sampleLog 7]),
    get_proxy_stats :=
      .ok (some { total_requests := 5, success_count := 3, error_count := 2 }),
    clear_proxy_logs := .ok () }

/-- A backend where every call succeeds; the history returned depends on
the requested limit, so the requested limit is observable. -/
def envAllOk : BackendEnv :=
  { load_config := .ok (some { proxy := some { enable_logging := true } }),
    save_config := fun _ => .ok (),
    set_proxy_monitor_enabled := fun _ => .ok (),
    get_proxy_logs := fun limit => .ok (some ((List.range (min limit 5)).map sampleLog)),
    get_proxy_stats :=
      .ok (some { total_requests := 5, success_count := 3, error_count := 2 }),
    clear_proxy_logs := .ok () }

/-- A backend where writing the config fails. -/
def envSaveFails : BackendEnv :=
  { envAllOk with save_config := fun _ => .error () }

/-- A backend where the durable history clear fails. -/
def envClearFails : BackendEnv :=
  { envAllOk with clear_proxy_logs := .error () }

/-- A backend whose history fetch returns 1001 records regardless of the
requested limit (and whose config load yields a null config). -/
def envBigHistory : BackendEnv :=
  { envAllOk with
      load_config := .ok none,
      get_proxy_logs := fun _ => .ok (some bigHistory) }

/-- Every string contains the empty substring. -/
theorem hasSub_nil_right (s : List Char) : hasSub s [] = true := by
  induction s with
  | nil => rfl
  | cons c cs ih => simp [hasSub, startsWithSub, ih]

/-- Truncating after an append absorbs an inner truncation to the same
length. -/
theorem take_append_take {α : Type} (A B : List α) (n : Nat) :
    (A ++ B.take n).take n = (A ++ B).take n := by
  rw [List.take_append_eq_append_take, List.take_append_eq_append_take,
    List.take_take]
  congr 1
  exact congrArg B.take (Nat.min_eq_left (Nat.sub_le n A.length))

/-- The stats update adds one to `total_requests`. -/
theorem applyInsert_total (r : ProxyRequestLog) (st : ProxyStats) :
    (applyInsert r st).total_requests = st.total_requests + 1 := rfl

/-- The stats update preserves the discrepancy `total - (success + error)`. -/
theorem statsDiff_applyInsert (r : ProxyRequestLog) (st : ProxyStats) :
    statsDiff (applyInsert r st) = statsDiff st := by
  unfold statsDiff applyInsert
  cases isSuccess r <;> simp <;> ring

/-- Unfolding one live event from a sequence. -/
theorem runLiveEvents_cons (r : ProxyRequestLog) (rs : List ProxyRequestLog)
    (s : MonitorState) :
    runLiveEvents (r :: rs) s = runLiveEvents rs (handleLiveEvent r s) := rfl

/-- A sequence of live events preserves the stats discrepancy. -/
theorem statsDiff_runLiveEvents (rs : List ProxyRequestLog) (s : MonitorState) :
    statsDiff (runLiveEvents rs s).stats = statsDiff s.stats := by
  induction rs generalizing s with
  | nil => rfl
  | cons r rs ih =>
      rw [runLiveEvents_cons, ih]
      exact statsDiff_applyInsert r s.stats

/-- The stats invariant, phrased through the discrepancy. -/
theorem statsDiff_eq_zero_iff (st : ProxyStats) :
    statsDiff st = 0 ↔ st.total_requests = st.success_count + st.error_count := by
  unfold statsDiff
  omega

/-- Unfolding one insertion from an iterated insertion. -/
theorem insertMany_cons (r : ProxyRequestLog) (rs : List ProxyRequestLog)
    (store : List ProxyRequestLog) :
    insertMany (r :: rs) store = insertMany rs (insertLog r store) := rfl

/-- A non-empty iterated insertion is the reverse-prepend of the inserted
records, truncated to the capacity. -/
theorem insertMany_eq_take (rs : List ProxyRequestLog) (store : List ProxyRequestLog)
    (h : rs ≠ []) : insertMany rs store = (rs.reverse ++ store).take 1000 := by
  induction rs generalizing store with
  | nil => exact absurd rfl h
  | cons r rs ih =>
      rw [insertMany_cons]
      rcases rs with _ | ⟨r2, rs2⟩
      · simp [insertMany, insertLog]
      · rw [ih _ (by simp)]
        show List.take 1000 ((r2 :: rs2).reverse ++ List.take 1000 (r :: store)) = _
        rw [take_append_take]
        simp [List.reverse_cons, List.append_assoc]

/-- The stats step appends exactly the history and stats calls to the
trace, in every outcome. -/
theorem loadDataStats_trace (env : BackendEnv) (s2 : MonitorState)
    (trace : List BackendCall) :
    (loadDataStats env s2 trace).2 =
      trace ++ [BackendCall.getLogs 100, BackendCall.getStats] := by
  unfold loadDataStats
  split
  · rfl
  · split <;> rfl

/-- The stats step never touches the log store. -/
theorem loadDataStats_logs (env : BackendEnv) (s2 : MonitorState)
    (trace : List BackendCall) :
    (loadDataStats env s2 trace).1.logs = s2.logs := by
  unfold loadDataStats
  split
  · rfl
  · split <;> rfl

/-- A failed stats fetch leaves the counters untouched. -/
theorem loadDataStats_stats_fails (env : BackendEnv) (s2 : MonitorState)
    (trace : List BackendCall) (h : env.get_proxy_stats = Except.error ()) :
    (loadDataStats env s2 trace).1.stats = s2.stats := by
  unfold loadDataStats
  rw [h]

/-- When the history fetch yields an array, the tail installs it wholesale. -/
theorem loadDataTail_logs (env : BackendEnv) (s : MonitorState)
    (trace : List BackendCall) (l : List ProxyRequestLog)
    (hl : env.get_proxy_logs 100 = Except.ok (some l)) :
    (loadDataTail env s trace).1.logs = l := by
  unfold loadDataTail
  rw [hl]
  exact loadDataStats_logs env _ trace

/-- A failed history fetch leaves the state untouched and skips the stats
step entirely. -/
theorem loadDataTail_hist_fails (env : BackendEnv) (s : MonitorState)
    (trace : List BackendCall) (h : env.get_proxy_logs 100 = Except.error ()) :
    loadDataTail env s trace = (s, trace ++ [BackendCall.getLogs 100]) := by
  unfold loadDataTail
  rw [h]

/-- A failed stats fetch leaves the counters untouched through the whole
tail. -/
theorem loadDataTail_stats_fails (env : BackendEnv) (s : MonitorState)
    (trace : List BackendCall) (h : env.get_proxy_stats = Except.error ()) :
    (loadDataTail env s trace).1.stats = s.stats := by
  unfold loadDataTail
  split
  · rfl
  · rw [loadDataStats_stats_fails env _ trace h]
    split <;> rfl

/-- Any history request issued by the tail carries limit 100. -/
theorem loadDataTail_limit (env : BackendEnv) (s : MonitorState)
    (trace : List BackendCall) (n : Nat)
    (hm : BackendCall.getLogs n ∈ (loadDataTail env s trace).2) :
    BackendCall.getLogs n ∈ trace ∨ n = 100 := by
  unfold loadDataTail at hm
  split at hm
  · simpa using hm
  · rw [loadDataStats_trace] at hm
    simpa using hm

/-- Whenever the bootstrap actually issues the history fetch and the fetch
yields an array, that array becomes the store contents verbatim. -/
theorem loadData_installs_history (env : BackendEnv) (s : MonitorState)
    (l : List ProxyRequestLog) (hl : env.get_proxy_logs 100 = Except.ok (some l)) :
    BackendCall.getLogs 100 ∈ (loadData env s).2 → (loadData env s).1.logs = l := by
  unfold loadData
  split
  · intro hm; simp at hm
  · split
    · split
      · split
        · intro hm; simp at hm
        · intro _
          exact loadDataTail_logs env _ _ l hl
      · intro _
        exact loadDataTail_logs env s _ l hl
    · intro _
      exact loadDataTail_logs env s _ l hl

/-- A failed config load stops the bootstrap at once: the state is
returned untouched and only the config call was issued. -/
theorem loadData_config_fails (env : BackendEnv) (s : MonitorState)
    (h : env.load_config = Except.error ()) :
    loadData env s = (s, [BackendCall.loadConfigCall]) := by
  unfold loadData
  rw [h]

/-- A failed history fetch leaves logs and stats untouched and the stats
fetch is never issued. -/
theorem loadData_hist_fails (env : BackendEnv) (s : MonitorState)
    (h : env.get_proxy_logs 100 = Except.error ()) :
    (loadData env s).1.logs = s.logs ∧ (loadData env s).1.stats = s.stats ∧
      BackendCall.getStats ∉ (loadData env s).2 := by
  unfold loadData
  split
  · exact ⟨rfl, rfl, by simp⟩
  · split
    · split
      · split
        · exact ⟨rfl, rfl, by simp⟩
        · rw [loadDataTail_hist_fails env _ _ h]
          exact ⟨rfl, rfl, by simp⟩
      · rw [loadDataTail_hist_fails env _ _ h]
        exact ⟨rfl, rfl, by simp⟩
    · rw [loadDataTail_hist_fails env _ _ h]
      exact ⟨rfl, rfl, by simp⟩

/-- A failed stats fetch leaves the counters untouched. -/
theorem loadData_stats_fails (env : BackendEnv) (s : MonitorState)
    (h : env.get_proxy_stats = Except.error ()) :
    (loadData env s).1.stats = s.stats := by
  unfold loadData
  split
  · rfl
  · split
    · split
      · split
        · rfl
        · exact loadDataTail_stats_fails env _ _ h
      · exact loadDataTail_stats_fails env s _ h
    · exact loadDataTail_stats_fails env s _ h

/-- Every history request issued during bootstrap carries limit 100. -/
theorem loadData_limit (env : BackendEnv) (s : MonitorState) (n : Nat)
    (hm : BackendCall.getLogs n ∈ (loadData env s).2) : n = 100 := by
  unfold loadData at hm
  split at hm
  · simp at hm
  · split at hm
    · split at hm
      · split at hm
        · simp at hm
        · rcases loadDataTail_limit env _ _ n hm with hin | h100
          · simp at hin
          · exact h100
      · rcases loadDataTail_limit env s _ n hm with hin | h100
        · simp at hin
        · exact h100
    · rcases loadDataTail_limit env s _ n hm with hin | h100
      · simp at hin
      · exact h100

/-- A failed config load aborts the toggle with the state untouched and
only the config call issued. -/
theorem toggle_part1 (env : BackendEnv) (b : Bool)
    (h : env.load_config = Except.error ()) :
    toggleLogging env b = (b, [BackendCall.loadConfigCall]) := by
  unfold toggleLogging
  rw [h]

/-- A failed config write aborts the toggle: the local flag is unchanged
and the backend sync is never issued. -/
theorem toggle_part2 (env : BackendEnv) (b : Bool) (pc : ProxyConfig)
    (hload : env.load_config = Except.ok (some { proxy := some pc }))
    (hsave : env.save_config { proxy := some { pc with enable_logging := !b } } =
      Except.error ()) :
    (toggleLogging env b).1 = b ∧
      ∀ e, BackendCall.setMonitorEnabled e ∉ (toggleLogging env b).2 := by
  unfold toggleLogging
  rw [hload]
  dsimp only
  rw [hsave]
  exact ⟨rfl, by intro e; simp⟩

/-- On full success the toggle issues load, save, sync in that order and
only then flips the local flag. -/
theorem toggle_part3 (env : BackendEnv) (b : Bool) (pc : ProxyConfig)
    (hload : env.load_config = Except.ok (some { proxy := some pc }))
    (hsave : env.save_config { proxy := some { pc with enable_logging := !b } } =
      Except.ok ())
    (hsync : env.set_proxy_monitor_enabled (!b) = Except.ok ()) :
    toggleLogging env b =
      (!b, [BackendCall.loadConfigCall,
            BackendCall.saveConfigCall { proxy := some { pc with enable_logging := !b } },
            BackendCall.setMonitorEnabled (!b)]) := by
  unfold toggleLogging
  rw [hload]
  dsimp only
  rw [hsave]
  dsimp only
  rw [hsync]

/-- A confirmed, successful clear resets logs and stats. -/
theorem clear_ok (env : BackendEnv) (s : MonitorState)
    (h : env.clear_proxy_logs = Except.ok ()) :
    clearLogs true env s =
      ({ s with logs := [], stats := zeroStats }, [BackendCall.clearCall]) := by
  unfold clearLogs
  rw [h]
  rfl

/-- A failed durable clear leaves the whole state untouched. -/
theorem clear_fails (env : BackendEnv) (s : MonitorState) (confirmed : Bool)
    (h : env.clear_proxy_logs = Except.error ()) :
    (clearLogs confirmed env s).1 = s := by
  unfold clearLogs
  cases confirmed
  · rfl
  · rw [h]
    rfl

/-- A declined confirmation issues nothing and changes nothing. -/
theorem clear_declined (env : BackendEnv) (s : MonitorState) :
    clearLogs false env s = (s, []) := rfl

/-- The clear command invokes the durable clear at most once (no retry). -/
theorem clear_count (env : BackendEnv) (s : MonitorState) (confirmed : Bool) :
    List.count BackendCall.clearCall (clearLogs confirmed env s).2 ≤ 1 := by
  unfold clearLogs
  cases confirmed
  · simp
  · cases h : env.clear_proxy_logs <;> simp

/-- From zero stats, any sequence of live events keeps the counters
balanced. -/
theorem stats_inv_zero (rs : List ProxyRequestLog) (l : List ProxyRequestLog) (b : Bool) :
    (runLiveEvents rs ⟨l, zeroStats, b⟩).stats.total_requests =
      (runLiveEvents rs ⟨l, zeroStats, b⟩).stats.success_count +
        (runLiveEvents rs ⟨l, zeroStats, b⟩).stats.error_count := by
  have h := statsDiff_runLiveEvents rs ⟨l, zeroStats, b⟩
  have h0 : statsDiff zeroStats = 0 := rfl
  rw [h0] at h
  exact (statsDiff_eq_zero_iff _).mp h

/-- One stats update adds 1 to the total and 1 to exactly one of the two
classified counters. -/
theorem applyInsert_increments (r : ProxyRequestLog) (st : ProxyStats) :
    (applyInsert r st).total_requests = st.total_requests + 1 ∧
      ((applyInsert r st).success_count = st.success_count + 1 ∧
          (applyInsert r st).error_count = st.error_count ∨
        (applyInsert r st).success_count = st.success_count ∧
          (applyInsert r st).error_count = st.error_count + 1) := by
  refine ⟨rfl, ?_⟩
  cases h : isSuccess r
  · right; simp [applyInsert, h]
  · left; simp [applyInsert, h]

/-- The classification predicate unfolded to the status bounds. -/
theorem isSuccess_iff (log : ProxyRequestLog) :
    isSuccess log = true ↔ 200 ≤ log.status ∧ log.status < 400 := by
  simp [isSuccess]

/-- The stats update increments the counter chosen by the status bounds. -/
theorem applyInsert_classified (log : ProxyRequestLog) (st : ProxyStats) :
    (applyInsert log st).success_count =
      st.success_count + (if 200 ≤ log.status ∧ log.status < 400 then 1 else 0) ∧
    (applyInsert log st).error_count =
      st.error_count + (if 200 ≤ log.status ∧ log.status < 400 then 0 else 1) := by
  by_cases h : 200 ≤ log.status ∧ log.status < 400
  · have hb : isSuccess log = true := (isSuccess_iff log).mpr h
    simp [applyInsert, hb, h]
  · have hb : isSuccess log = false := by
      cases ht : isSuccess log
      · rfl
      · exact absurd ((isSuccess_iff log).mp ht) h
    simp [applyInsert, hb, h]

/-- Inserting 1001 records into an empty store keeps exactly the last 1000
of them, newest first. -/
theorem insertMany_capacity1001 (rs : List ProxyRequestLog) (h : rs.length = 1001) :
    insertMany rs [] = (rs.drop 1).reverse ∧ (insertMany rs []).length = 1000 := by
  have hne : rs ≠ [] := by
    intro he; rw [he] at h; simp at h
  have h1 : insertMany rs [] = rs.reverse.take 1000 := by
    rw [insertMany_eq_take rs [] hne]; simp
  rcases rs with _ | ⟨a, t⟩
  · simp at h
  · have ht : t.length = 1000 := by simpa using h
    have h2 : (a :: t).reverse.take 1000 = t.reverse := by
      have hrev : (a :: t).reverse = t.reverse ++ [a] := by simp
      rw [hrev, List.take_append_eq_append_take]
      have hl : t.reverse.length = 1000 := by simpa using ht
      rw [List.take_of_length_le (le_of_eq hl), hl]
      simp
    constructor
    · rw [h1, h2]; rfl
    · rw [h1, h2]; simpa using ht

/-- The implemented filter predicate agrees with the specification's
disjunction of substring tests. -/
theorem matchesLog_iff_spec (log : ProxyRequestLog) (q : String) :
    matchesLog log q = true ↔ matchesSpec log q := by
  unfold matchesLog matchesSpec ciSubstrOf jsIncludes
  constructor
  · intro h
    simp only [Bool.or_eq_true] at h
    rcases h with ((h | h) | h) | h
    · exact Or.inl h
    · exact Or.inr (Or.inl h)
    · cases hm : log.model with
      | none => rw [hm] at h; simp at h
      | some m =>
          rw [hm] at h
          simp only [Bool.and_eq_true] at h
          exact Or.inr (Or.inr (Or.inl ⟨m, rfl, h.2⟩))
    · exact Or.inr (Or.inr (Or.inr h))
  · intro h
    simp only [Bool.or_eq_true]
    rcases h with h | h | ⟨m, hm, hci⟩ | h
    · exact Or.inl (Or.inl (Or.inl h))
    · exact Or.inl (Or.inl (Or.inr h))
    · by_cases he : m = ""
      · subst he
        have hq : (jsToLower q).toList = [] := by
          have h2 : (jsToLower q).toList.isEmpty = true := hci
          simpa using h2
        refine Or.inl (Or.inl (Or.inl ?_))
        rw [hq]
        exact hasSub_nil_right _
      · refine Or.inl (Or.inr ?_)
        rw [hm]
        simp only [Bool.and_eq_true]
        refine ⟨by simp [he], hci⟩
    · exact Or.inr h

/-- An empty query matches every record. -/
theorem matchesLog_empty (log : ProxyRequestLog) : matchesLog log "" = true := by
  have h1 : jsIncludes (jsToLower log.url) (jsToLower "") = true := by
    show hasSub (jsToLower log.url).toList [] = true
    exact hasSub_nil_right _
  unfold matchesLog
  rw [h1]
  simp

/-- C1 (counterexample): the claim that a failed config fetch does not
prevent the history and stats fetches from being attempted and applied is
false. With a failing config fetch but succeeding history and stats
endpoints, `loadData` leaves the store empty and the stats at zero and
never issues the history or stats calls. -/
theorem bootstrap_config_failure_skips_rest_cex :
    envConfigFails.get_proxy_logs 100 = Except.ok (some [sampleLog 7]) ∧
    (loadData envConfigFails initialState).1.logs = [] ∧
    (loadData envConfigFails initialState).1.logs ≠ [sampleLog 7] ∧
    BackendCall.getLogs 100 ∉ (loadData envConfigFails initialState).2 ∧
    BackendCall.getStats ∉ (loadData envConfigFails initialState).2 :=
  ⟨rfl, rfl, by decide, by decide, by decide⟩

/-- C1 (amended): a failed bootstrap fetch is caught and does not abort
startup with an exception, but it ends the bootstrap sequence: the steps
after the failing fetch are skipped rather than attempted, the state keeps
its in-memory defaults for the failed and skipped steps, and updates
applied before the failure are kept. In particular a config-load failure
leaves the state untouched and issues no further backend calls. -/
theorem bootstrap_failure_aborts_remaining (env : BackendEnv) (s : MonitorState) :
    (env.load_config = Except.error () →
        loadData env s = (s, [BackendCall.loadConfigCall])) ∧
    (env.get_proxy_logs 100 = Except.error () →
        (loadData env s).1.logs = s.logs ∧ (loadData env s).1.stats = s.stats ∧
          BackendCall.getStats ∉ (loadData env s).2) ∧
    (env.get_proxy_stats = Except.error () →
        (loadData env s).1.stats = s.stats) :=
  ⟨loadData_config_fails env s, loadData_hist_fails env s, loadData_stats_fails env s⟩

/-- C1 (witness): the amended statement instantiated at the failing-config
backend and the initial state. -/
theorem bootstrap_failure_aborts_remaining_witness :
    loadData envConfigFails initialState = (initialState, [BackendCall.loadConfigCall]) :=
  (bootstrap_failure_aborts_remaining envConfigFails initialState).1 rfl

/-- C2 (counterexample): the claim that the bootstrap history fetch is
issued with limit 1000 (the LogStore capacity) is false: on a fully
successful bootstrap the history fetch carries limit 100 and no request
with limit 1000 is ever issued. -/
theorem bootstrap_history_limit_cex :
    BackendCall.getLogs 100 ∈ (loadData envAllOk initialState).2 ∧
    BackendCall.getLogs 1000 ∉ (loadData envAllOk initialState).2 ∧
    (100 : Nat) ≠ 1000 :=
  ⟨by decide, by decide, by decide⟩

/-- C2 (amended): the bootstrap requests up to 100 historical records —
every history request in the bootstrap trace carries limit argument 100,
not the store capacity of 1000 — and a returned array is installed
wholesale into the store. -/
theorem bootstrap_history_limit_100 (env : BackendEnv) (s : MonitorState) :
    (∀ n, BackendCall.getLogs n ∈ (loadData env s).2 → n = 100) ∧
    (∀ l, env.get_proxy_logs 100 = Except.ok (some l) →
        BackendCall.getLogs 100 ∈ (loadData env s).2 →
        (loadData env s).1.logs = l) :=
  ⟨fun n hm => loadData_limit env s n hm,
   fun l hl hm => loadData_installs_history env s l hl hm⟩

/-- C2 (witness): the amended statement instantiated at the all-success
backend, whose history endpoint answers a limit-100 request with five
records. -/
theorem bootstrap_history_limit_100_witness :
    (100 : Nat) = 100 ∧
    (loadData envAllOk initialState).1.logs = (List.range 5).map sampleLog :=
  ⟨(bootstrap_history_limit_100 envAllOk initialState).1 100 (by decide),
   (bootstrap_history_limit_100 envAllOk initialState).2
     ((List.range 5).map sampleLog) rfl (by decide)⟩

/-- C3: starting from the zero stats state, every sequence of live-event
applications (each performing the paired `insertLog` and `applyInsert`)
keeps `total_requests = success_count + error_count`, and each
`applyInsert` adds 1 to the total and 1 to exactly one of
`success_count` / `error_count`. -/
theorem stats_invariant_live_events :
    (∀ (rs l : List ProxyRequestLog) (b : Bool),
        (runLiveEvents rs ⟨l, zeroStats, b⟩).stats.total_requests =
          (runLiveEvents rs ⟨l, zeroStats, b⟩).stats.success_count +
            (runLiveEvents rs ⟨l, zeroStats, b⟩).stats.error_count) ∧
    (∀ (r : ProxyRequestLog) (st : ProxyStats),
        (applyInsert r st).total_requests = st.total_requests + 1 ∧
          ((applyInsert r st).success_count = st.success_count + 1 ∧
              (applyInsert r st).error_count = st.error_count ∨
            (applyInsert r st).success_count = st.success_count ∧
              (applyInsert r st).error_count = st.error_count + 1)) :=
  ⟨fun rs l b => stats_inv_zero rs l b, fun r st => applyInsert_increments r st⟩

/-- C4: a live insert prepends the record (newest first) and truncates
from the tail to the fixed capacity 1000, so the store never exceeds 1000
records; inserting 1001 records one at a time into an empty store leaves
exactly 1000, in strict newest-first insertion order, with the oldest
record dropped. -/
theorem log_capacity_bound :
    (∀ (r : ProxyRequestLog) (prev : List ProxyRequestLog),
        insertLog r prev = (r :: prev).take 1000 ∧
        (insertLog r prev).head? = some r ∧
        (insertLog r prev).length ≤ 1000) ∧
    (∀ rs : List ProxyRequestLog, rs.length = 1001 →
        insertMany rs [] = (rs.drop 1).reverse ∧
        (insertMany rs []).length = 1000) := by
  constructor
  · intro r prev
    exact ⟨rfl, by simp [insertLog], by simp [insertLog, List.length_take]⟩
  · exact insertMany_capacity1001

/-- C4 (witness): the capacity statement instantiated at a concrete list
of 1001 records. -/
theorem log_capacity_bound_witness :
    bigHistory.length = 1001 ∧
    insertMany bigHistory [] = (bigHistory.drop 1).reverse ∧
    (insertMany bigHistory []).length = 1000 := by
  have h : bigHistory.length = 1001 := by simp [bigHistory]
  exact ⟨h, (log_capacity_bound.2 bigHistory h).1, (log_capacity_bound.2 bigHistory h).2⟩

/-- C5: the classification used by `applyInsert` counts a record as
success exactly when `200 ≤ status < 400`; statuses 200 and 399 are
successes and 400 and 404 are errors, and `applyInsert` increments the
counter selected by those bounds. -/
theorem success_classification :
    (∀ log : ProxyRequestLog,
        isSuccess log = true ↔ 200 ≤ log.status ∧ log.status < 400) ∧
    (∀ (log : ProxyRequestLog) (st : ProxyStats),
        (applyInsert log st).success_count =
          st.success_count + (if 200 ≤ log.status ∧ log.status < 400 then 1 else 0) ∧
        (applyInsert log st).error_count =
          st.error_count + (if 200 ≤ log.status ∧ log.status < 400 then 0 else 1)) ∧
    (∀ log : ProxyRequestLog, log.status = 200 → isSuccess log = true) ∧
    (∀ log : ProxyRequestLog, log.status = 399 → isSuccess log = true) ∧
    (∀ log : ProxyRequestLog, log.status = 400 → isSuccess log = false) ∧
    (∀ log : ProxyRequestLog, log.status = 404 → isSuccess log = false) := by
  refine ⟨isSuccess_iff, applyInsert_classified, ?_, ?_, ?_, ?_⟩ <;>
    · intro log h
      unfold isSuccess
      rw [h]
      decide

/-- C5 (witness): the boundary statuses instantiated at concrete records. -/
theorem success_classification_witness :
    isSuccess (statusLog 200) = true ∧ isSuccess (statusLog 399) = true ∧
    isSuccess (statusLog 400) = false ∧ isSuccess (statusLog 404) = false := by
  obtain ⟨-, -, h200, h399, h400, h404⟩ := success_classification
  exact ⟨h200 _ rfl, h399 _ rfl, h400 _ rfl, h404 _ rfl⟩

/-- C6: the filter predicate holds exactly when the query is a
case-insensitive substring of `url`, of `method`, or of `model` when
present, or a substring of the decimal string form of `status`; the empty
query matches every record; and a record with url "/v1/chat/completions"
matches "completions" and does not match "gemini". -/
theorem filter_predicate_spec :
    (∀ (log : ProxyRequestLog) (q : String),
        matchesLog log q = true ↔ matchesSpec log q) ∧
    (∀ log : ProxyRequestLog, matchesLog log "" = true) ∧
    matchesLog (sampleLog 0) "completions" = true ∧
    matchesLog (sampleLog 0) "gemini" = false :=
  ⟨matchesLog_iff_spec, matchesLog_empty, by decide, by decide⟩

/-- C7: if the configuration read fails, or the configuration write fails,
the local recording flag is left unchanged and the backend-sync command is
never issued; on success the steps complete as read, persist, sync, in
that order, before the local flag is updated. -/
theorem toggle_failure_leaves_state (env : BackendEnv) (b : Bool) :
    (env.load_config = Except.error () →
        toggleLogging env b = (b, [BackendCall.loadConfigCall])) ∧
    (∀ pc : ProxyConfig,
        env.load_config = Except.ok (some { proxy := some pc }) →
        env.save_config { proxy := some { pc with enable_logging := !b } } =
          Except.error () →
        (toggleLogging env b).1 = b ∧
          ∀ e, BackendCall.setMonitorEnabled e ∉ (toggleLogging env b).2) ∧
    (∀ pc : ProxyConfig,
        env.load_config = Except.ok (some { proxy := some pc }) →
        env.save_config { proxy := some { pc with enable_logging := !b } } =
          Except.ok () →
        env.set_proxy_monitor_enabled (!b) = Except.ok () →
        toggleLogging env b =
          (!b, [BackendCall.loadConfigCall,
                BackendCall.saveConfigCall { proxy := some { pc with enable_logging := !b } },
                BackendCall.setMonitorEnabled (!b)])) :=
  ⟨toggle_part1 env b, fun pc => toggle_part2 env b pc, fun pc => toggle_part3 env b pc⟩

/-- C7 (witness): the failed-write case instantiated at the failing-save
backend, starting from the disabled state. -/
theorem toggle_failure_leaves_state_witness :
    (toggleLogging envSaveFails false).1 = false ∧
    BackendCall.setMonitorEnabled true ∉ (toggleLogging envSaveFails false).2 ∧
    BackendCall.setMonitorEnabled false ∉ (toggleLogging envSaveFails false).2 := by
  have h := (toggle_failure_leaves_state envSaveFails false).2.1
    { enable_logging := true } rfl rfl
  exact ⟨h.1, h.2 true, h.2 false⟩

/-- C8: after confirmation, a successful durable clear resets logs and
stats; a failed durable clear leaves both exactly as they were; a declined
confirmation issues nothing; and the durable clear is invoked at most once
per command (no automatic retry). -/
theorem clear_failure_preserves_state (env : BackendEnv) (s : MonitorState)
    (confirmed : Bool) :
    (confirmed = true → env.clear_proxy_logs = Except.ok () →
        clearLogs confirmed env s =
          ({ s with logs := [], stats := zeroStats }, [BackendCall.clearCall])) ∧
    (env.clear_proxy_logs = Except.error () → (clearLogs confirmed env s).1 = s) ∧
    (confirmed = false → clearLogs confirmed env s = (s, [])) ∧
    List.count BackendCall.clearCall (clearLogs confirmed env s).2 ≤ 1 := by
  refine ⟨?_, clear_fails env s confirmed, ?_, clear_count env s confirmed⟩
  · intro hc hok
    subst hc
    exact clear_ok env s hok
  · intro hc
    subst hc
    exact clear_declined env s

/-- C8 (witness): the failed-clear case at a nonempty state, and the
successful-clear case resetting the same state. -/
theorem clear_failure_preserves_state_witness :
    (clearLogs true envClearFails ⟨[sampleLog 1], ⟨1, 1, 0⟩, true⟩).1 =
      (⟨[sampleLog 1], ⟨1, 1, 0⟩, true⟩ : MonitorState) ∧
    clearLogs true envAllOk ⟨[sampleLog 1], ⟨1, 1, 0⟩, true⟩ =
      (⟨[], zeroStats, true⟩, [BackendCall.clearCall]) := by
  refine ⟨(clear_failure_preserves_state envClearFails _ true).2.1 rfl, ?_⟩
  exact (clear_failure_preserves_state envAllOk ⟨[sampleLog 1], ⟨1, 1, 0⟩, true⟩ true).1 rfl rfl

/-- C9: a live event preserves the quantity `total - (success + error)`;
the snapshot installation replaces the counters wholesale with no
validation; hence a snapshot violating `total = success + error` leaves
the invariant violated, and the violation persists across every subsequent
sequence of live events. -/
theorem snapshot_violation_persists :
    (∀ (r : ProxyRequestLog) (s : MonitorState),
        statsDiff (handleLiveEvent r s).stats = statsDiff s.stats) ∧
    (∀ snap prev : ProxyStats, setSnapshot snap prev = snap) ∧
    (∀ (snap : ProxyStats) (l : List ProxyRequestLog) (b : Bool)
        (rs : List ProxyRequestLog),
        snap.total_requests ≠ snap.success_count + snap.error_count →
        (runLiveEvents rs ⟨l, snap, b⟩).stats.total_requests ≠
          (runLiveEvents rs ⟨l, snap, b⟩).stats.success_count +
            (runLiveEvents rs ⟨l, snap, b⟩).stats.error_count) := by
  refine ⟨fun r s => statsDiff_applyInsert r s.stats, fun snap prev => rfl, ?_⟩
  intro snap l b rs hne hcontra
  have hd := statsDiff_runLiveEvents rs ⟨l, snap, b⟩
  have h0 : statsDiff (runLiveEvents rs ⟨l, snap, b⟩).stats = 0 :=
    (statsDiff_eq_zero_iff _).mpr hcontra
  rw [h0] at hd
  exact hne ((statsDiff_eq_zero_iff snap).mp hd.symm)

/-- C9 (witness): an unbalanced snapshot followed by one live event still
violates the invariant. -/
theorem snapshot_violation_persists_witness :
    (runLiveEvents [sampleLog 0] ⟨[], ⟨5, 1, 1⟩, false⟩).stats.total_requests ≠
      (runLiveEvents [sampleLog 0] ⟨[], ⟨5, 1, 1⟩, false⟩).stats.success_count +
        (runLiveEvents [sampleLog 0] ⟨[], ⟨5, 1, 1⟩, false⟩).stats.error_count :=
  snapshot_violation_persists.2.2 ⟨5, 1, 1⟩ [] false [sampleLog 0] (by decide)

/-- C10: the bootstrap snapshot installation does not enforce the
1000-record capacity — any array the history fetch returns, even one
longer than 1000, becomes the store verbatim — while a single subsequent
live insert leaves exactly `min (previousLength + 1) 1000` records. -/
theorem snapshot_install_uncapped (env : BackendEnv) (s : MonitorState) :
    (∀ l, env.get_proxy_logs 100 = Except.ok (some l) →
        BackendCall.getLogs 100 ∈ (loadData env s).2 →
        (loadData env s).1.logs = l) ∧
    (∀ (r : ProxyRequestLog) (l : List ProxyRequestLog),
        (insertLog r l).length = min (l.length + 1) 1000) := by
  refine ⟨fun l hl hm => loadData_installs_history env s l hl hm, ?_⟩
  intro r l
  simp only [insertLog, List.length_take, List.length_cons]
  omega

/-- C10 (witness): a 1001-record history is installed verbatim, and one
live insert brings the store back to the 1000-record bound. -/
theorem snapshot_install_uncapped_witness :
    bigHistory.length = 1001 ∧
    (loadData envBigHistory initialState).1.logs = bigHistory ∧
    (insertLog (sampleLog 0) bigHistory).length = min (bigHistory.length + 1) 1000 := by
  refine ⟨by simp [bigHistory], ?_,
    (snapshot_install_uncapped envBigHistory initialState).2 (sampleLog 0) bigHistory⟩
  exact (snapshot_install_uncapped envBigHistory initialState).1 bigHistory rfl (by decide)
